import Mathlib

/-!
Verification of the uavcan.rs core against its specification.

The Rust sources embedded here:
- `src/types.rs` (primitive types: `Bool`, `IntX`, `Float32` and their
  `set_from_bytes` implementations),
- `src/lib.rs` (`TailByte` and its `u8` conversions, `MessageFrameHeader::to_id`),
- `uavcan/src/transfer.rs` (`TailByte` bit accessors, `Ord for Priority`),
- `src/frame_generator.rs` (`FrameGenerator::next_transport_frame`),
- `uavcan/src/node.rs` (`SimpleNode::broadcast`).

Machine integers are embedded as `Nat` (unsigned) and `Int` (signed results),
with masking made explicit exactly where the source masks.  Bytes are `Nat`
values below 256.  Fallible operations (slice indexing that can panic, calls
to `unimplemented!`) are embedded with `Option` or a dedicated outcome type.

The repository declares modules `serializer` and `crc` that are not present
in the sources; where needed they are modelled from the specification text
(sections 4.3 and 4.4) and marked as such.
-/

set_option maxRecDepth 100000

namespace Uavcan

/-! ### The `bit` crate (`bit::BitIndex`), as used by `types.rs` -/

/-- `bit` crate: `v.bit(i)` tests bit `i` of `v`. -/
def bit (v i : Nat) : Bool :=
  v.testBit i

/-- `bit` crate: `v.bit_range(lo..hi)` extracts bits `lo` (inclusive) to `hi`
(exclusive) of `v`, shifted down so that bit `lo` of `v` becomes bit 0 of the
result. -/
def bitRange (v lo hi : Nat) : Nat :=
  (v >>> lo) &&& (2 ^ (hi - lo) - 1)

/-- Rust `transmute::<u64, i64>`: reinterpret the low 64 bits as a
twos-complement signed value. -/
def transmuteI64 (v : Nat) : Int :=
  if v < 2 ^ 63 then (v : Int) else (v : Int) - 2 ^ 64

/-! ### `src/types.rs`: primitive types -/

/-- `types.rs`, `impl UavcanPrimitiveType for Bool`, `set_from_bytes`.

The source reads
`if buffer[0] & 1 == 0 { self.value = false; } else { self.value == true; }`;
in the second branch `self.value == true` is a comparison expression whose
value is discarded, so the stored value is left unchanged.  `value` is the
stored value before the call; the result is the stored value after the call,
`none` when the buffer is empty (index panic). -/
def boolSetFromBytes (value : Bool) (buffer : List Nat) : Option Bool :=
  match buffer with
  | [] => none
  | b :: _ => if b &&& 1 = 0 then some false else some value

/-- `types.rs`, `impl UavcanPrimitiveType for IntX`, `set_from_bytes`.

`x` is the declared bit width.  The loop assembles `(x+7)/8` buffer bytes
little-endian into `temp_bm`; then, if bit `x-1` is set, the source ORs in
`0xffffffffffffffff.bit_range(x..64)` (NB: `bit_range` shifts the extracted
ones down to bit 0), otherwise it truncates to the low `x` bits.  The result
is the final `transmute::<u64, i64>` value, `none` when the buffer is too
short (index panic). -/
def intXSetFromBytes (x : Nat) (buffer : List Nat) : Option Int :=
  if buffer.length < (x + 7) / 8 then none else
  let temp_bm := (List.range ((x + 7) / 8)).foldl
    (fun acc i => acc ||| ((buffer.getD i 0) <<< (i * 8))) 0
  let v := if bit temp_bm (x - 1) then
      temp_bm ||| bitRange (2 ^ 64 - 1) x 64
    else
      bitRange temp_bm 0 x
  some (transmuteI64 v)

/-- `types.rs`, `impl UavcanPrimitiveType for Float32`, `set_from_bytes`.

The stored `f32` is embedded as its raw 32-bit pattern.  The source computes
`buffer[0] | buffer[0] << 8 | buffer[1] << 16 | buffer[2] << 24`
(note: `buffer[0]` appears twice, `buffer[3]` is never read), so only three
bytes are required before the indexing panics (`none`). -/
def float32SetFromBytes (buffer : List Nat) : Option Nat :=
  if buffer.length < 3 then none else
  some ((buffer.getD 0 0) ||| ((buffer.getD 0 0) <<< 8) |||
        ((buffer.getD 1 0) <<< 16) ||| ((buffer.getD 2 0) <<< 24))

/-! ### `src/lib.rs`: `TailByte` and the message frame header -/

/-- `lib.rs`, `struct TailByte`. -/
structure TailByte where
  start_of_transfer : Bool
  end_of_transfer : Bool
  toggle : Bool
  transfer_id : Nat
deriving DecidableEq, Repr

/-- `lib.rs`, `impl From<TailByte> for u8`. -/
def tailByteToU8 (tb : TailByte) : Nat :=
  ((cond tb.start_of_transfer 1 0) <<< 7) |||
  ((cond tb.end_of_transfer 1 0) <<< 6) |||
  ((cond tb.toggle 1 0) <<< 5) |||
  (tb.transfer_id &&& 0x1f)

/-- `lib.rs`, `impl From<u8> for TailByte`.  NB: the source reads the
`toggle` field from `u & (1 << 6)`, the same bit as `end_of_transfer`. -/
def tailByteFromU8 (u : Nat) : TailByte :=
  { start_of_transfer := u &&& (1 <<< 7) != 0
    end_of_transfer := u &&& (1 <<< 6) != 0
    toggle := u &&& (1 <<< 6) != 0
    transfer_id := u &&& 0x1f }

/-- `lib.rs`, `struct MessageFrameHeader`. -/
structure MessageFrameHeader where
  priority : Nat
  type_id : Nat
  source_node : Nat
deriving DecidableEq, Repr

/-- `lib.rs`, `impl TransportFrameHeader for MessageFrameHeader`, `to_id`:
`((priority as u32) << 24) & 0x1f000000 | ((type_id as u32) << 8) & 0x00ffff00
| (0u32 << 7) | (source_node as u32) & 0x0000007f`. -/
def MessageFrameHeader.to_id (h : MessageFrameHeader) : Nat :=
  ((h.priority <<< 24) &&& 0x1f000000) |||
  ((h.type_id <<< 8) &&& 0x00ffff00) |||
  (0 <<< 7) |||
  (h.source_node &&& 0x0000007f)

/-! ### `uavcan/src/transfer.rs`: tail-byte accessors and priority ordering -/

/-- `transfer.rs`, `TailByte::start_of_transfer` (on the raw byte). -/
def tailByteStartBit (value : Nat) : Bool :=
  value &&& (1 <<< 7) != 0

/-- `transfer.rs`, `TailByte::end_of_transfer` (on the raw byte). -/
def tailByteEndBit (value : Nat) : Bool :=
  value &&& (1 <<< 6) != 0

/-- `transfer.rs`, `TailByte::toggle` (on the raw byte): reads bit 5. -/
def tailByteToggleBit (value : Nat) : Bool :=
  value &&& (1 <<< 5) != 0

/-- `transfer.rs`, `TailByte::transfer_id` (on the raw byte). -/
def tailByteTransferId (value : Nat) : Nat :=
  value &&& 0x1f

/-- `transfer.rs`, `impl Ord for Priority<TransferFrameID>`:
`self.0.cmp(&other.0).reverse()`.  A `TransferFrameID` is a `u32` restricted
to 29 bits whose derived order is the numeric order, embedded as `Nat`. -/
def priorityCmp (a b : Nat) : Ordering :=
  (compare a b).swap

/-- A CAN 2.0B frame (the `TransferFrame` used throughout: 29-bit id, up to 8
data bytes).  `data` is the 8-byte backing array; `dlc` is the data length
set with `set_data_length`, so the live data is `data.take dlc`. -/
structure CanFrame where
  id : Nat
  dlc : Nat
  data : List Nat
deriving DecidableEq, Repr

/-- `transfer.rs`, `impl<F: TransferFrame> Ord for Priority<F>`:
`self.0.id().cmp(&other.0.id()).reverse()`. -/
def priorityFrameCmp (f g : CanFrame) : Ordering :=
  (compare f.id g.id).swap

/-! ### The serializer, modelled from the specification

`src/lib.rs` declares `mod parser` and `frame_generator.rs` imports
`serializer::{SerializationResult, Serializer}`, but no `serializer.rs` is
present in the sources. -/

/-- LSB-first value of a list of bits (bit 0 of the list is the least
significant bit of the byte). -/
def byteFromBits (bs : List Bool) : Nat :=
  bs.foldr (fun b acc => (cond b 1 0) + 2 * acc) 0

/-- Pack a bit stream into `n` bytes, LSB-first within each byte; missing
trailing bits are 0 (the output buffer starts zeroed). -/
def bitsToBytes (bits : List Bool) (n : Nat) : List Nat :=
  (List.range n).map (fun i => byteFromBits ((bits.drop (8 * i)).take 8))

/-- A byte as 8 bits, LSB first. -/
def byteToBits (b : Nat) : List Bool :=
  (List.range 8).map (fun i => b.testBit i)

/-- A byte string as a bit stream, LSB-first within each byte. -/
def bytesToBits (bs : List Nat) : List Bool :=
  (bs.map byteToBits).flatten

/-- Modelled from the spec: the missing `serializer` module returns
`Finished(bits_written)` or `BufferFull(bits_written)` from `serialize`
(specification section 4.3). -/
inductive SerializationResult where
  | bufferFull : Nat → SerializationResult
  | finished : Nat → SerializationResult
deriving DecidableEq, Repr

/-- Modelled from the spec: the missing `serializer` module.  The serializer
state is the stream of body bits not yet written (section 4.3: a streaming
cursor; its `remaining_bits` method reports how many bits are left). -/
structure Serializer where
  bits : List Bool
deriving DecidableEq, Repr

/-- `Serializer::remaining_bits`. -/
def Serializer.remainingBits (s : Serializer) : Nat :=
  s.bits.length

/-- Modelled from the spec: `Serializer::serialize` into a buffer of `n`
bytes (the missing `serializer` module, specification section 4.3). Writes
bits LSB-first, byte-LSB-first from bit 0 of byte 0 of the buffer; returns
`Finished(bits written)` when the remaining stream fits, otherwise fills the
buffer and returns `BufferFull`.  The result carries the updated serializer
and the `n` buffer bytes after the write (unwritten trailing bits stay 0,
matching the zero-initialised frame buffers it is used on). -/
def Serializer.serialize (s : Serializer) (n : Nat) :
    SerializationResult × Serializer × List Nat :=
  if s.bits.length ≤ 8 * n then
    (.finished s.bits.length, ⟨[]⟩, bitsToBytes s.bits n)
  else
    (.bufferFull (8 * n), ⟨s.bits.drop (8 * n)⟩, bitsToBytes (s.bits.take (8 * n)) n)

/-! ### `src/frame_generator.rs` -/

/-- `frame_generator.rs`, `struct FrameGenerator`. -/
structure FrameGenerator where
  serializer : Serializer
  started : Bool
  id : Nat
  toggle : Bool
  transfer_id : Nat
deriving DecidableEq, Repr

/-- `FrameGenerator::from_uavcan_frame`, with the already-serialized body
bit stream, the header id and the transfer id as inputs. -/
def FrameGenerator.fromParts (bits : List Bool) (id transferId : Nat) : FrameGenerator :=
  ⟨⟨bits⟩, false, id, false, transferId⟩

/-- `frame_generator.rs`, `FrameGenerator::next_transport_frame`, for the CAN
2.0B frame (`max_data_length = 8`).  `T::with_length(id, max_data_length)`
yields a frame with `dlc = max_data_length` and zeroed data.  Mirrored
branch by branch:
- `remaining_bits == 0`: return `None` (state untouched);
- first frame of a multi-frame transfer: serialize into bytes
  `2 .. max_data_length-1` (the CRC bytes 0,1 are left as initialised — the
  source has `// TODO: calc crc`), write the tail byte at the last position;
- otherwise serialize into bytes `0 .. max_data_length-1`; only if the
  serializer returns `Finished(i)` are the data length and the tail byte set
  (on `BufferFull` the frame is returned as serialized, tail position left
  at its initial 0). -/
def FrameGenerator.nextTransportFrame (g : FrameGenerator) :
    Option CanFrame × FrameGenerator :=
  let remaining_bits := g.serializer.remainingBits
  let max_data_length := 8
  let max_payload_length := max_data_length - 1
  if remaining_bits = 0 then
    (none, g)
  else if g.started = false ∧ max_payload_length * 8 < remaining_bits then
    let step := g.serializer.serialize (max_data_length - 1 - 2)
    let data := [0, 0] ++ step.2.2 ++
      [tailByteToU8 ⟨!g.started, false, g.toggle, g.transfer_id⟩]
    (some ⟨g.id, max_data_length, data⟩,
      { g with serializer := step.2.1, started := true, toggle := !g.toggle })
  else
    let step := g.serializer.serialize max_payload_length
    match step.1 with
    | .finished i =>
      let frame_length := (i + 7) / 8 + 1
      let data := (step.2.2 ++ [0]).set (frame_length - 1)
        (tailByteToU8 ⟨!g.started, true, g.toggle, g.transfer_id⟩)
      (some ⟨g.id, frame_length, data⟩,
        { g with serializer := step.2.1, started := true, toggle := !g.toggle })
    | .bufferFull _ =>
      (some ⟨g.id, max_data_length, step.2.2 ++ [0]⟩,
        { g with serializer := step.2.1, started := true, toggle := !g.toggle })

/-- The generator state after `k` calls to `next_transport_frame`. -/
def FrameGenerator.stateAfter (g : FrameGenerator) : Nat → FrameGenerator
  | 0 => g
  | k + 1 => ((FrameGenerator.stateAfter g k).nextTransportFrame).2

/-- The frame returned by call number `k` (counting from 0) to
`next_transport_frame`. -/
def FrameGenerator.output (g : FrameGenerator) (k : Nat) : Option CanFrame :=
  ((g.stateAfter k).nextTransportFrame).1

/-- All calls from number `k0` on return `None`. -/
def FrameGenerator.emitsNoneFrom (g : FrameGenerator) (k0 : Nat) : Prop :=
  ∀ k, k0 ≤ k → g.output k = none

/-! ### The transport CRC, modelled from the specification

`src/lib.rs` declares `mod crc` but no `crc.rs` is present in the sources. -/

/-- Modelled from the spec: one byte step of the missing `crc` module
(section 4.4): CRC-16-CCITT, polynomial 0x1021, MSB first. -/
def crcAddByte (crc b : Nat) : Nat :=
  (List.range 8).foldl
    (fun c _ =>
      if c &&& 0x8000 ≠ 0 then ((c <<< 1) ^^^ 0x1021) &&& 0xffff
      else (c <<< 1) &&& 0xffff)
    ((crc ^^^ (b <<< 8)) &&& 0xffff)

/-- Modelled from the spec: the missing `crc` module (section 4.4):
CRC-16-CCITT with initial value 0xFFFF over all payload bytes of the full
serialized body. -/
def crc16 (bytes : List Nat) : Nat :=
  bytes.foldl crcAddByte 0xffff

/-! ### `uavcan/src/node.rs`: `SimpleNode::broadcast` -/

/-- `embedded_types::io::Error`: `BufferExhausted` is the only error the
transmit path is specified to produce. -/
inductive IOError where
  | bufferExhausted
deriving DecidableEq, Repr

/-- The observable outcome of `SimpleNode::broadcast`: a normal return
(`Ok(())` or `Err(e)`), or a panic raised by `unimplemented!`. -/
inductive BroadcastOutcome where
  | ok
  | err : IOError → BroadcastOutcome
  | unimplementedPanic : String → BroadcastOutcome
deriving DecidableEq, Repr

/-- `node.rs`, `struct NodeConfig` (the protocol version is fixed to the
default `Version0`, the only one `broadcast` implements).  `id = none` is an
anonymous node; a present id is a `NodeID`, a `u8` in `1..=127`. -/
structure NodeConfig where
  id : Option Nat
deriving DecidableEq, Repr

/-- The `while let Some(can_frame) = framer.next_frame()` transmit loop of
`broadcast`: transmit every generated frame, propagating the first transmit
error with `?`.  Runs on fuel; `fuel = bits + 1` always suffices because
every emitted frame consumes body bits.  Also returns the list of frames
passed to `transmit`, in order. -/
def transmitLoop (transmit : CanFrame → Except IOError Unit) :
    Nat → FrameGenerator → BroadcastOutcome × List CanFrame
  | 0, _ => (.ok, [])
  | fuel + 1, g =>
    match g.nextTransportFrame with
    | (none, _) => (.ok, [])
    | (some f, g2) =>
      match transmit f with
      | .error e => (.err e, [f])
      | .ok _ =>
        let rest := transmitLoop transmit fuel g2
        (rest.1, f :: rest.2)

/-- `node.rs`, `SimpleNode::broadcast` (default version `Version0`).

Hard-coded in the source: `priority = 0`, `transfer_id = 0`.  When
`config.id` is `Some(node_id)` it builds the message frame header from the
node id and the message type id, constructs the framer over the serialized
body and transmits every frame; when `config.id` is `None` the source
executes `unimplemented!("Anonymous transfers not implemented")`, which
panics.  The `Version0Framer` lives in a `versioning` module absent from the
sources; it is taken to be the `FrameGenerator` of `frame_generator.rs`
(modelled from the spec, section 4.6, which describes the framer). -/
def broadcast (config : NodeConfig) (transmit : CanFrame → Except IOError Unit)
    (bodyBits : List Bool) (typeId : Nat) : BroadcastOutcome × List CanFrame :=
  match config.id with
  | some nodeId =>
    let header : MessageFrameHeader := ⟨0, typeId, nodeId⟩
    let g := FrameGenerator.fromParts bodyBits header.to_id 0
    transmitLoop transmit (bodyBits.length + 1) g
  | none => (.unimplementedPanic "Anonymous transfers not implemented", [])

/-! ### Concrete transfers used by the concrete theorems -/

/-- The body of specification scenario 2: 16 bytes of monotone u8 `0..=15`. -/
def scenario2Body : List Nat :=
  [0, 1, 2, 3, 4, 5, 6, 7, 8, 9, 10, 11, 12, 13, 14, 15]

/-- The frame generator of scenario 2 (transfer id 3; header id 0). -/
def scenario2Gen : FrameGenerator :=
  FrameGenerator.fromParts (bytesToBits scenario2Body) 0 3

/-! ### Helper lemmas -/

/-- Bitwise and distributes over an equal left shift of both arguments. -/
theorem shiftLeft_land_shiftLeft (a b i : Nat) :
    (a <<< i) &&& (b <<< i) = (a &&& b) <<< i := by
  apply Nat.eq_of_testBit_eq
  intro j
  simp only [Nat.testBit_land, Nat.testBit_shiftLeft]
  by_cases h : j ≥ i <;> simp [h]

/-- Bitwise or of a shifted value with a value below the shift is addition. -/
theorem shiftLeft_lor_add (a b k : Nat) (hb : b < 2 ^ k) :
    (a <<< k) ||| b = a * 2 ^ k + b := by
  have hhi : ((a <<< k) ||| b) >>> k = a := by
    apply Nat.eq_of_testBit_eq
    intro i
    simp only [Nat.testBit_shiftRight, Nat.testBit_lor, Nat.testBit_shiftLeft]
    have hb2 : b.testBit (k + i) = false :=
      Nat.testBit_lt_two_pow
        (lt_of_lt_of_le hb (Nat.pow_le_pow_right (by norm_num) (Nat.le_add_right k i)))
    simp [hb2, Nat.add_sub_cancel_left, Nat.le_add_right]
  have hlo : ((a <<< k) ||| b) % 2 ^ k = b := by
    apply Nat.eq_of_testBit_eq
    intro i
    simp only [Nat.testBit_mod_two_pow, Nat.testBit_lor, Nat.testBit_shiftLeft]
    by_cases h : i < k
    · simp [h, Nat.not_le.mpr h]
    · have hb3 : b.testBit i = false :=
        Nat.testBit_lt_two_pow
          (lt_of_lt_of_le hb (Nat.pow_le_pow_right (by norm_num) (Nat.le_of_not_lt h)))
      simp [h, hb3]
  calc (a <<< k) ||| b
      = 2 ^ k * (((a <<< k) ||| b) / 2 ^ k) + ((a <<< k) ||| b) % 2 ^ k :=
        (Nat.div_add_mod _ _).symm
    _ = a * 2 ^ k + b := by
        rw [← Nat.shiftRight_eq_div_pow, hhi, hlo, Nat.mul_comm]

/-- A generator whose serializer has no bits left returns `None` and leaves
its state untouched. -/
theorem nextTransportFrame_empty (g : FrameGenerator)
    (h : g.serializer.bits = []) : g.nextTransportFrame = (none, g) := by
  simp [FrameGenerator.nextTransportFrame, Serializer.remainingBits, h]

/-- Once the serializer is drained, every later call returns `None`. -/
theorem emitsNoneFrom_of_empty (g : FrameGenerator) (k0 : Nat)
    (h : (g.stateAfter k0).serializer.bits = []) : g.emitsNoneFrom k0 := by
  have hstate : ∀ d, g.stateAfter (k0 + d) = g.stateAfter k0 := by
    intro d
    induction d with
    | zero => rfl
    | succ d ih =>
      have : g.stateAfter (k0 + (d + 1)) = ((g.stateAfter (k0 + d)).nextTransportFrame).2 := rfl
      rw [this, ih, nextTransportFrame_empty _ h]
  intro k hk
  have hk2 : k = k0 + (k - k0) := by omega
  rw [FrameGenerator.output, hk2, hstate, nextTransportFrame_empty _ h]

/-- Evaluation of `next_transport_frame` on a fresh generator whose body is
nonempty and fits in 7 bytes: the single-frame branch. -/
theorem nextTransportFrame_single (bits : List Bool) (id tid : Nat)
    (h0 : bits ≠ []) (h1 : bits.length ≤ 56) :
    (FrameGenerator.fromParts bits id tid).nextTransportFrame =
      (some ⟨id, (bits.length + 7) / 8 + 1,
        (bitsToBytes bits 7 ++ [0]).set ((bits.length + 7) / 8)
          (tailByteToU8 ⟨true, true, false, tid⟩)⟩,
       ⟨⟨[]⟩, true, id, true, tid⟩) := by
  have hlen : bits.length ≠ 0 := by simpa [List.length_eq_zero] using h0
  unfold FrameGenerator.nextTransportFrame FrameGenerator.fromParts
  simp only [Serializer.remainingBits, Serializer.serialize]
  rw [if_neg hlen, if_neg (by omega : ¬(True ∧ (8 - 1) * 8 < bits.length)),
    if_pos (by omega : bits.length ≤ 8 * (8 - 1))]
  norm_num

/-! ### Claim theorems -/

/-- C1: for the multi-frame transfer of scenario 2 (16-byte body `0..=15`,
transfer id 3), the first frame emitted by `next_transport_frame` has its
first two data bytes equal to 0, not to the little-endian CRC-CCITT of the
body (which is 15159 = 0x3B37, bytes 55 and 59): the source never computes
the CRC (`// TODO: calc crc`).  The remainder of the claim holds: bytes
2..6 are the first 5 body bytes and the tail byte 131 = 0x83 has SOT=1,
EOT=0, Toggle=0, transfer id 3. -/
theorem c1_first_frame_has_no_crc :
    scenario2Gen.output 0 = some ⟨0, 8, [0, 0, 0, 1, 2, 3, 4, 131]⟩ ∧
    crc16 scenario2Body = 15159 ∧
    crc16 scenario2Body % 256 = 55 ∧
    crc16 scenario2Body / 256 = 59 ∧
    [(0 : Nat), 0] ≠ [crc16 scenario2Body % 256, crc16 scenario2Body / 256] ∧
    tailByteStartBit 131 = true ∧
    tailByteEndBit 131 = false ∧
    tailByteToggleBit 131 = false ∧
    tailByteTransferId 131 = 3 := by
  refine ⟨by decide, by decide, by decide, by decide, by decide, by decide,
    by decide, by decide, by decide⟩

/-- C3: in the multi-frame transfer of scenario 2 the middle frame (emission
index 1) is returned with its tail position still 0: the middle-frame branch
of `next_transport_frame` only writes a tail byte when the serializer
returns `Finished`, so on `BufferFull` no tail byte is written.  Hence the
toggle bit of the frame at index 1 is 0, not 1 as the alternation 0,1,0,…
demands (and its transfer id reads as 0, not 3).  The first and last frames
do carry correct tail bytes (toggle 0 at index 0 via 0x83, toggle 0 at index
2 via 0x43 = 67). -/
theorem c3_middle_frame_toggle_not_written :
    scenario2Gen.output 1 = some ⟨0, 8, [5, 6, 7, 8, 9, 10, 11, 0]⟩ ∧
    scenario2Gen.output 2 = some ⟨0, 5, [12, 13, 14, 15, 67, 0, 0, 0]⟩ ∧
    scenario2Gen.output 3 = none ∧
    tailByteToggleBit 0 = false ∧
    tailByteStartBit 0 = false ∧
    tailByteEndBit 0 = false ∧
    tailByteTransferId 0 = 0 ∧
    tailByteEndBit 67 = true ∧
    tailByteToggleBit 67 = false := by
  refine ⟨by decide, by decide, by decide, by decide, by decide, by decide,
    by decide, by decide, by decide⟩

/-- C4: the `lib.rs` tail-byte round trip is not the identity, because
`From<u8> for TailByte` reads the toggle flag from bit 6 (the EOT bit)
instead of bit 5: the encoder writes toggle to bit 5 (byte 32 = 0x20, whose
bit 5 the `transfer.rs` accessor confirms), but decoding 32 yields
`toggle = false`. -/
theorem c4_tail_byte_roundtrip_loses_toggle :
    tailByteToU8 ⟨false, false, true, 0⟩ = 32 ∧
    tailByteToggleBit 32 = true ∧
    tailByteFromU8 32 = ⟨false, false, false, 0⟩ ∧
    tailByteFromU8 (tailByteToU8 ⟨false, false, true, 0⟩) ≠
      ⟨false, false, true, 0⟩ := by
  refine ⟨by decide, by decide, by decide, by decide⟩

/-- C5 counterexample: the claim places the priority at bits 28..26
(`to_id = p * 2^26 + t * 2^8 + s`), but the source shifts the priority by
24: for priority 1, type id 0, source node 0 the source returns
0x01000000 = 16777216, not 1 * 2^26 = 67108864. -/
theorem c5_priority_not_at_bit_26 :
    MessageFrameHeader.to_id ⟨1, 0, 0⟩ = 16777216 ∧
    (1 * 2 ^ 26 + 0 * 2 ^ 8 + 0 : Nat) = 67108864 ∧
    MessageFrameHeader.to_id ⟨1, 0, 0⟩ ≠ 1 * 2 ^ 26 + 0 * 2 ^ 8 + 0 := by
  refine ⟨by decide, by decide, by decide⟩

/-- C6: `IntX::set_from_bytes` does not sign-extend.  For width 8 and buffer
`[0x80]` the assembled value 0x80 has its sign bit set, and the claim
requires the stored value 0x80 - 2^8 = -128; the source instead ORs
`0xffffffffffffffff.bit_range(8..64)` — the extracted ones shifted down to
bit 0, that is 2^56 - 1 — into the value, storing 72057594037927935. -/
theorem c6_intx_sign_extension_wrong :
    intXSetFromBytes 8 [128] = some 72057594037927935 ∧
    (128 : Int) - 2 ^ 8 = -128 ∧
    intXSetFromBytes 8 [128] ≠ some (-128) := by
  refine ⟨by decide, by decide, by decide⟩

/-- C7: `Float32::set_from_bytes` does not store the little-endian pattern
of the four buffer bytes: the source uses `buffer[0]` for both byte 0 and
byte 1 of the pattern and never reads `buffer[3]`.  On `[1, 2, 3, 4]` it
stores 0x03020101 = 50462977 instead of 0x04030201 = 67305985. -/
theorem c7_float32_bytes_shifted :
    float32SetFromBytes [1, 2, 3, 4] = some 50462977 ∧
    ((1 : Nat) ||| (2 <<< 8) ||| (3 <<< 16) ||| (4 <<< 24)) = 67305985 ∧
    float32SetFromBytes [1, 2, 3, 4] ≠ some 67305985 := by
  refine ⟨by decide, by decide, by decide⟩

/-- C2 counterexample: a transfer with an empty serialized body fits in at
most `P - 1` bytes, but the first call to `next_transport_frame` returns
`None`: no frame is emitted at all, while the claim requires exactly one. -/
theorem c2_empty_body_emits_no_frame :
    (FrameGenerator.fromParts [] 0 0).output 0 = none := by
  decide

/-- C2 (amended): for every transfer whose serialized body is nonempty and
fits in at most `P - 1 = 7` bytes the framer emits exactly one frame: the
first call to `next_transport_frame` returns a frame whose data length is
`⌈body_bits / 8⌉ + 1` and whose tail byte encodes SOT=1, EOT=1, Toggle=0
and the given 5-bit transfer id, and every subsequent call returns `None`.
(An empty body is excluded: there the framer emits no frame.) -/
theorem c2_single_frame (bits : List Bool) (id tid : Nat)
    (h0 : bits ≠ []) (h1 : bits.length ≤ 56) (h2 : tid < 32) :
    ((FrameGenerator.fromParts bits id tid).output 0).map CanFrame.dlc =
      some ((bits.length + 7) / 8 + 1) ∧
    ((FrameGenerator.fromParts bits id tid).output 0).map
        (fun f => f.data.getD (f.dlc - 1) 0) =
      some (tailByteToU8 ⟨true, true, false, tid⟩) ∧
    (FrameGenerator.fromParts bits id tid).emitsNoneFrom 1 := by
  have hnext := nextTransportFrame_single bits id tid h0 h1
  have hout : (FrameGenerator.fromParts bits id tid).output 0 =
      some ⟨id, (bits.length + 7) / 8 + 1,
        (bitsToBytes bits 7 ++ [0]).set ((bits.length + 7) / 8)
          (tailByteToU8 ⟨true, true, false, tid⟩)⟩ := by
    rw [FrameGenerator.output, FrameGenerator.stateAfter, hnext]
  refine ⟨by rw [hout]; rfl, ?_, ?_⟩
  · rw [hout]
    have hidx : (bits.length + 7) / 8 < (bitsToBytes bits 7 ++ [0]).length := by
      simp only [List.length_append, List.length_cons, List.length_nil, bitsToBytes,
        List.length_map, List.length_range]
      omega
    have hget : ((bitsToBytes bits 7 ++ [0]).set ((bits.length + 7) / 8)
        (tailByteToU8 ⟨true, true, false, tid⟩)).getD ((bits.length + 7) / 8 + 1 - 1) 0 =
        tailByteToU8 ⟨true, true, false, tid⟩ := by
      rw [Nat.add_sub_cancel]
      simp [List.getD_eq_getElem?_getD, List.getElem?_set_self hidx]
    exact congrArg some hget
  · apply emitsNoneFrom_of_empty
    have : (FrameGenerator.fromParts bits id tid).stateAfter 1 =
        ⟨⟨[]⟩, true, id, true, tid⟩ := by
      rw [FrameGenerator.stateAfter, FrameGenerator.stateAfter, hnext]
    rw [this]

/-- C2 witness: the 56-bit NodeStatus body of the frame-generator unit test
(bytes `[1, 0, 0, 0, 142, 5, 0]`), transfer id 0. -/
theorem c2_single_frame_witness :
    (bytesToBits [1, 0, 0, 0, 142, 5, 0] ≠ [] ∧
      (bytesToBits [1, 0, 0, 0, 142, 5, 0]).length ≤ 56 ∧ (0 : Nat) < 32) ∧
    (((FrameGenerator.fromParts (bytesToBits [1, 0, 0, 0, 142, 5, 0]) 87328 0).output 0).map
        CanFrame.dlc =
      some (((bytesToBits [1, 0, 0, 0, 142, 5, 0]).length + 7) / 8 + 1) ∧
    ((FrameGenerator.fromParts (bytesToBits [1, 0, 0, 0, 142, 5, 0]) 87328 0).output 0).map
        (fun f => f.data.getD (f.dlc - 1) 0) =
      some (tailByteToU8 ⟨true, true, false, 0⟩) ∧
    (FrameGenerator.fromParts (bytesToBits [1, 0, 0, 0, 142, 5, 0]) 87328 0).emitsNoneFrom 1) :=
  ⟨⟨by decide, by decide, by decide⟩,
    c2_single_frame (bytesToBits [1, 0, 0, 0, 142, 5, 0]) 87328 0
      (by decide) (by decide) (by decide)⟩

/-- C5 (amended): `MessageFrameHeader::to_id` places the priority in bits
28..24 (shift by 24, five-bit mask), not bits 28..26: for priority `p < 8`,
16-bit type id `t` and source node `s ≤ 127` it returns
`p * 2^24 + t * 2^8 + s`. -/
theorem c5_to_id_layout (p t s : Nat) (hp : p < 8) (ht : t < 2 ^ 16) (hs : s ≤ 127) :
    MessageFrameHeader.to_id ⟨p, t, s⟩ = p * 2 ^ 24 + t * 2 ^ 8 + s := by
  unfold MessageFrameHeader.to_id
  have hA : (p <<< 24) &&& 0x1f000000 = p <<< 24 := by
    have h1 : (0x1f000000 : Nat) = 0x1f <<< 24 := by norm_num [Nat.shiftLeft_eq]
    rw [h1, shiftLeft_land_shiftLeft]
    have h2 : p &&& 0x1f = p := by
      have h3 := Nat.and_pow_two_sub_one_eq_mod p 5
      norm_num at h3
      rw [h3]
      omega
    rw [h2]
  have hB : (t <<< 8) &&& 0x00ffff00 = t <<< 8 := by
    have h1 : (0x00ffff00 : Nat) = 0xffff <<< 8 := by norm_num [Nat.shiftLeft_eq]
    rw [h1, shiftLeft_land_shiftLeft]
    have h2 : t &&& 0xffff = t := by
      have h3 := Nat.and_pow_two_sub_one_eq_mod t 16
      norm_num at h3
      rw [h3]
      omega
    rw [h2]
  have hD : s &&& 0x0000007f = s := by
    have h3 := Nat.and_pow_two_sub_one_eq_mod s 7
    norm_num at h3
    rw [h3]
    omega
  rw [hA, hB, hD]
  have hC : (0 : Nat) <<< 7 = 0 := by norm_num [Nat.shiftLeft_eq]
  have hzero : (p <<< 24 ||| t <<< 8) ||| 0 = p <<< 24 ||| t <<< 8 := by simp
  rw [hC, hzero, Nat.lor_assoc]
  rw [shiftLeft_lor_add t s 8 (by omega)]
  rw [shiftLeft_lor_add p (t * 2 ^ 8 + s) 24 (by norm_num; omega)]
  omega

/-- C5 witness: priority 5, type id 341, source node 32. -/
theorem c5_to_id_layout_witness :
    ((5 : Nat) < 8 ∧ (341 : Nat) < 2 ^ 16 ∧ (32 : Nat) ≤ 127) ∧
    MessageFrameHeader.to_id ⟨5, 341, 32⟩ = 5 * 2 ^ 24 + 341 * 2 ^ 8 + 32 :=
  ⟨⟨by decide, by decide, by decide⟩,
    c5_to_id_layout 5 341 32 (by decide) (by decide) (by decide)⟩

/-- C8: the ordering on `Priority` is exactly the reverse of the numeric
ordering of the 29-bit frame identifier, both for bare identifiers and for
frames compared through their id: `Priority(a) < Priority(b)` (that is,
`cmp = Less`) holds iff `a > b` numerically. -/
theorem c8_priority_reverse_numeric (a b : Nat) (ha : a < 2 ^ 29) (hb : b < 2 ^ 29)
    (f g : CanFrame) (hf : f.id = a) (hg : g.id = b) :
    (priorityCmp a b = Ordering.lt ↔ b < a) ∧
    (priorityFrameCmp f g = Ordering.lt ↔ b < a) := by
  have key : ∀ x y : Nat, ((compare x y).swap = Ordering.lt ↔ y < x) := by
    intro x y
    rcases Nat.lt_trichotomy x y with h | h | h
    · rw [Nat.compare_eq_lt.mpr h]
      simp [Ordering.swap]
      omega
    · subst h
      rw [Nat.compare_eq_eq.mpr rfl]
      simp [Ordering.swap]
    · rw [Nat.compare_eq_gt.mpr h]
      simp [Ordering.swap, h]
  exact ⟨key a b, by rw [priorityFrameCmp, hf, hg]; exact key a b⟩

/-- C8 witness: ids 7 and 5 (id 5 wins arbitration, so `Priority(7)` is the
smaller priority). -/
theorem c8_priority_reverse_numeric_witness :
    ((7 : Nat) < 2 ^ 29 ∧ (5 : Nat) < 2 ^ 29) ∧
    ((priorityCmp 7 5 = Ordering.lt ↔ 5 < 7) ∧
     (priorityFrameCmp ⟨7, 0, []⟩ ⟨5, 0, []⟩ = Ordering.lt ↔ 5 < 7)) :=
  ⟨⟨by decide, by decide⟩,
    c8_priority_reverse_numeric 7 5 (by decide) (by decide) ⟨7, 0, []⟩ ⟨5, 0, []⟩ rfl rfl⟩

/-- C9 (amended): `SimpleNode::broadcast` on an anonymous node (no node id)
panics via `unimplemented!("Anonymous transfers not implemented")` before
transmitting any frame, instead of returning an error to the caller. -/
theorem c9_broadcast_requires_node_id (config : NodeConfig)
    (transmit : CanFrame → Except IOError Unit) (bodyBits : List Bool)
    (typeId : Nat) (h : config.id = none) :
    broadcast config transmit bodyBits typeId =
      (.unimplementedPanic "Anonymous transfers not implemented", []) := by
  unfold broadcast
  rw [h]

/-- C9 witness: the default anonymous configuration, a one-byte body. -/
theorem c9_broadcast_requires_node_id_witness :
    (NodeConfig.mk none).id = none ∧
    broadcast ⟨none⟩ (fun _ => Except.ok ()) (bytesToBits [1]) 341 =
      (.unimplementedPanic "Anonymous transfers not implemented", []) :=
  ⟨rfl, c9_broadcast_requires_node_id ⟨none⟩ (fun _ => Except.ok ())
    (bytesToBits [1]) 341 rfl⟩

/-- C10: `Bool::set_from_bytes` stores `false` whenever the least
significant bit of the first buffer byte is 0, and leaves the stored value
unchanged whenever that bit is 1 (the source line `self.value == true;` is a
discarded comparison, not an assignment); consequently it can never turn a
stored `false` into `true`. -/
theorem c10_bool_set_from_bytes (value : Bool) (b : Nat) (rest : List Nat)
    (hb : b < 256) :
    boolSetFromBytes value (b :: rest) =
      some (if b &&& 1 = 0 then false else value) ∧
    boolSetFromBytes false (b :: rest) ≠ some true := by
  constructor
  · show (if b &&& 1 = 0 then some false else some value) = _
    by_cases h : b &&& 1 = 0
    · rw [if_pos h, if_pos h]
    · rw [if_neg h, if_neg h]
  · show (if b &&& 1 = 0 then some false else some false) ≠ some true
    by_cases h : b &&& 1 = 0
    · rw [if_pos h]
      simp
    · rw [if_neg h]
      simp

/-- C10 witness: stored value `true`, buffer `[3]` (bit 0 set, value kept)
— and the `false`-stays-`false` consequence at the same buffer. -/
theorem c10_bool_set_from_bytes_witness :
    (3 : Nat) < 256 ∧
    (boolSetFromBytes true [3] = some (if 3 &&& 1 = 0 then false else true) ∧
     boolSetFromBytes false [3] ≠ some true) :=
  ⟨by decide, c10_bool_set_from_bytes true 3 [] (by decide)⟩

/-- C9 counterexample: broadcasting from an anonymous node (no node id) does
not return an error to the caller: the source executes
`unimplemented!("Anonymous transfers not implemented")`, which panics, and
no frame is transmitted. -/
theorem c9_anonymous_broadcast_panics :
    broadcast ⟨none⟩ (fun _ => Except.ok ()) (bytesToBits [1]) 341 =
      (.unimplementedPanic "Anonymous transfers not implemented", []) ∧
    (broadcast ⟨none⟩ (fun _ => Except.ok ()) (bytesToBits [1]) 341).1 ≠
      .err IOError.bufferExhausted := by
  refine ⟨rfl, by decide⟩

end Uavcan
